import Mathlib

/-!
Shallow embedding of `src/bevyQml/rust/src/cxxqt_object.rs` (the single source
file of the BevyQml repository) together with the parts of the `bevy_math`
cubic-spline library (`bevy_math/src/cubic_splines.rs`, Bevy 0.13 line, the
dependency this file calls into) that the file's behaviour depends on.

Machine integers are modelled as `Int` with explicit two's-complement
wrapping where overflow matters; `f32` arithmetic is modelled over `ℝ`;
`QString` is modelled as `String`.
-/

namespace BevyQml

/-! ### The bridge-exposed object

Rust source:
```
#[derive(Default)]
pub struct MyObjectRust {
    number: i32,
    string: QString,
}
```
-/

/-- Two's-complement wrapping of a mathematical integer into the `i32`
range `[-2^31, 2^31 - 1]`.  Rust's release-mode `+` on `i32` wraps this way
(debug mode panics instead; either way the sum `i32::MAX + 1` is not
representable). -/
def wrap32 (n : Int) : Int := (n + 2 ^ 31) % 2 ^ 32 - 2 ^ 31

/-- Smallest `i32` value. -/
def i32Min : Int := -(2 ^ 31)

/-- Largest `i32` value. -/
def i32Max : Int := 2 ^ 31 - 1

/-- The Rust struct backing the QObject: an `i32` counter and a `QString`.
`number : Int` stays in `i32` range through `wrap32`; `QString` is modelled
as `String`. -/
structure MyObjectRust where
  number : Int
  string : String
deriving DecidableEq

/-- `#[derive(Default)]`: `i32` defaults to 0, `QString` to the empty
string. -/
def MyObjectRust.default : MyObjectRust := { number := 0, string := "" }

/-- Embedding of
```
pub fn increment_number(self: Pin<&mut Self>) {
    let previous = *self.number();
    self.set_number(previous + 1);
}
```
with `previous + 1` the `i32` addition (wrapping model). -/
def increment_number (self : MyObjectRust) : MyObjectRust :=
  let previous := self.number
  { self with number := wrap32 (previous + 1) }

/-! ### Vec3 and the bevy_math cubic-spline types

`Vec3` (three `f32` components) is modelled with real components.  The
cubic-spline definitions below embed `bevy_math/src/cubic_splines.rs`:
`CubicSegment`, `CubicBezier::to_curve`, `CubicCurve::position` and the
sampling iterators used by `animate_cube`. -/

/-- A 3-component vector, `glam::Vec3` with real components. -/
@[ext]
structure Vec3 where
  x : ℝ
  y : ℝ
  z : ℝ

/-- Constructor mirroring `bevy::math::vec3(x, y, z)`. -/
def vec3 (x y z : ℝ) : Vec3 := ⟨x, y, z⟩

/-- Componentwise vector addition (`impl Add for Vec3`). -/
instance : Add Vec3 := ⟨fun a b => ⟨a.x + b.x, a.y + b.y, a.z + b.z⟩⟩

/-- Scalar multiplication on the right, `Vec3 * f32`, as used by bevy_math's
`VectorSpace` arithmetic. -/
instance : HMul Vec3 ℝ Vec3 := ⟨fun v c => ⟨v.x * c, v.y * c, v.z * c⟩⟩

/-- The zero vector (`Vec3::ZERO`, also `Transform::default()`'s
translation). -/
def Vec3.zero : Vec3 := ⟨0, 0, 0⟩

instance : Inhabited Vec3 := ⟨Vec3.zero⟩

/-- One cubic segment of a spline, in polynomial-coefficient form.
Rust: `pub struct CubicSegment<P> { pub coeff: [P; 4] }`. -/
structure CubicSegment where
  coeff : Fin 4 → Vec3

instance : Inhabited CubicSegment := ⟨⟨fun _ => Vec3.zero⟩⟩

/-- Embedding of
```
pub fn position(&self, t: f32) -> P {
    let [a, b, c, d] = self.coeff;
    a + (b + (c + d * t) * t) * t
}
```
-/
def CubicSegment.position (s : CubicSegment) (t : ℝ) : Vec3 :=
  let a := s.coeff 0
  let b := s.coeff 1
  let c := s.coeff 2
  let d := s.coeff 3
  a + (b + (c + d * t) * t) * t

/-- Embedding of `CubicSegment::coefficients(p, char_matrix)`: row `i` of the
characteristic matrix dotted with the four control points,
`p[0] * m[i][0] + p[1] * m[i][1] + p[2] * m[i][2] + p[3] * m[i][3]`. -/
def CubicSegment.coefficients (p : Fin 4 → Vec3) (m : Fin 4 → Fin 4 → ℝ) :
    CubicSegment :=
  ⟨fun i => p 0 * m i 0 + p 1 * m i 1 + p 2 * m i 2 + p 3 * m i 3⟩

/-- The Bézier characteristic matrix from `CubicBezier::to_curve`:
```
let char_matrix = [
    [1., 0., 0., 0.],
    [-3., 3., 0., 0.],
    [3., -6., 3., 0.],
    [-1., 3., -3., 1.],
];
```
-/
def bezierCharMatrix : Fin 4 → Fin 4 → ℝ :=
  ![![1, 0, 0, 0], ![-3, 3, 0, 0], ![3, -6, 3, 0], ![-1, 3, -3, 1]]

/-- A multi-segment cubic curve,
Rust: `pub struct CubicCurve<P> { segments: Vec<CubicSegment<P>> }`. -/
structure CubicCurve where
  segments : List CubicSegment

/-- The Bézier builder, `pub struct CubicBezier<P> { control_points: Vec<[P; 4]> }`. -/
structure CubicBezier where
  control_points : List (Fin 4 → Vec3)

/-- `CubicBezier::new(points)`. -/
def CubicBezier.new (points : List (Fin 4 → Vec3)) : CubicBezier := ⟨points⟩

/-- Embedding of `impl CubicGenerator for CubicBezier`'s `to_curve`: one
coefficient segment per four-point control list, via the Bézier
characteristic matrix. -/
def CubicBezier.to_curve (b : CubicBezier) : CubicCurve :=
  ⟨b.control_points.map (fun p => CubicSegment.coefficients p bezierCharMatrix)⟩

/-- Embedding of the segment lookup
```
fn segment(&self, t: f32) -> (&CubicSegment<P>, f32) {
    if self.segments.len() == 1 {
        (&self.segments[0], t)
    } else {
        let i = (t.floor() as usize).clamp(0, self.segments.len() - 1);
        (&self.segments[i], t - i as f32)
    }
}
```
`t.floor() as usize` saturates negative values to 0, which `Int.toNat`
reproduces. -/
noncomputable def CubicCurve.segment (c : CubicCurve) (t : ℝ) :
    CubicSegment × ℝ :=
  if c.segments.length = 1 then (c.segments.getD 0 default, t)
  else
    let i := min ⌊t⌋.toNat (c.segments.length - 1)
    (c.segments.getD i default, t - i)

/-- Embedding of
```
pub fn position(&self, t: f32) -> P {
    let (segment, t) = self.segment(t);
    segment.position(t)
}
```
-/
noncomputable def CubicCurve.position (c : CubicCurve) (t : ℝ) : Vec3 :=
  let st := c.segment t
  st.1.position st.2

/-- Embedding of
```
fn iter_uniformly(&self, subdivisions: usize) -> impl Iterator<Item = f32> {
    let segments = self.segments.len() as f32;
    let step = segments / subdivisions as f32;
    (0..=subdivisions).map(move |i| i as f32 * step)
}
```
Note the inclusive range `0..=subdivisions`: the iterator yields
`subdivisions + 1` values. -/
noncomputable def CubicCurve.iter_uniformly (c : CubicCurve)
    (subdivisions : ℕ) : List ℝ :=
  let segments : ℝ := c.segments.length
  let step := segments / subdivisions
  (List.range (subdivisions + 1)).map (fun (i : ℕ) => (i : ℝ) * step)

/-- Embedding of `iter_samples(subdivisions, sample_function)`. -/
noncomputable def CubicCurve.iter_samples (c : CubicCurve) (subdivisions : ℕ)
    (sample_function : CubicCurve → ℝ → Vec3) : List Vec3 :=
  (c.iter_uniformly subdivisions).map (sample_function c)

/-- Embedding of `iter_positions(subdivisions)` =
`iter_samples(subdivisions, Self::position)`. -/
noncomputable def CubicCurve.iter_positions (c : CubicCurve)
    (subdivisions : ℕ) : List Vec3 :=
  c.iter_samples subdivisions CubicCurve.position

/-! ### Scene data: the entities spawned by `setup`

The claims reference translations, the curve component, mesh and light
roles; mesh/material asset handles are modelled by their shape/colour, and
rotations (the camera's `looking_at`) are omitted as no claim reads them. -/

/-- CSS palette colours used by the file (`ORANGE`, `SILVER`, `WHITE`). -/
inductive CssColor
  | orange
  | silver
  | white
deriving DecidableEq

/-- Shape of a spawned mesh asset: `Cuboid::default()` or
`Plane3d::default().mesh().size(w, h)`. -/
inductive MeshShape
  | cuboid
  | plane (w h : ℝ)

/-- A transform, reduced to its translation (the only part the file reads or
writes; the camera's rotation from `looking_at` is not modelled). -/
structure Transform where
  translation : Vec3

/-- `Transform::from_translation(v)`. -/
def Transform.from_translation (v : Vec3) : Transform := ⟨v⟩

/-- `Transform::from_xyz(x, y, z)`. -/
def Transform.from_xyz (x y z : ℝ) : Transform := ⟨vec3 x y z⟩

/-- `Transform::default()`: translation `Vec3::ZERO`. -/
def Transform.default : Transform := ⟨Vec3.zero⟩

/-- The fields of `PointLight` set by `setup`. -/
structure PointLight where
  shadows_enabled : Bool
  intensity : ℝ
  range : ℝ

/-- An entity in ECS style: optional components attached to one identity.
`curve` is the file's `Curve(CubicCurve<Vec3>)` component; `camera` marks a
`Camera3dBundle`. -/
structure Entity where
  transform : Transform
  curve : Option CubicCurve
  mesh : Option MeshShape
  material : Option CssColor
  light : Option PointLight
  camera : Bool

/-- The control points defined in `setup`:
```
let points = [[
    vec3(-6., 2., 0.),
    vec3(12., 8., 0.),
    vec3(-12., 8., 0.),
    vec3(6., 2., 0.),
]];
```
(`points` has one element, the four-point list modelled here). -/
def controlPoints : Fin 4 → Vec3 :=
  ![vec3 (-6) 2 0, vec3 12 8 0, vec3 (-12) 8 0, vec3 6 2 0]

/-- `let bezier = CubicBezier::new(points).to_curve();`. -/
def bezier : CubicCurve := (CubicBezier.new [controlPoints]).to_curve

/-- The four entities spawned by `setup`, in spawn order: the orange cube
carrying the `Curve` component at the first control point, the point light
with shadows enabled at (8,16,8), the silver ground plane, and the camera at
(0,6,12). -/
def setupEntities : List Entity :=
  [ { transform := Transform.from_translation (controlPoints 0),
      curve := some bezier,
      mesh := some MeshShape.cuboid,
      material := some CssColor.orange,
      light := none,
      camera := false },
    { transform := Transform.from_xyz 8 16 8,
      curve := none,
      mesh := none,
      material := none,
      light := some { shadows_enabled := true, intensity := 10000000, range := 100 },
      camera := false },
    { transform := Transform.default,
      curve := none,
      mesh := some (MeshShape.plane 50 50),
      material := some CssColor.silver,
      light := none,
      camera := false },
    { transform := Transform.from_xyz 0 6 12,
      curve := none,
      mesh := none,
      material := none,
      light := none,
      camera := true } ]

/-! ### The per-frame system `animate_cube` -/

/-- One `gizmos.linestrip(points, color)` draw command. -/
structure GizmoLine where
  points : List Vec3
  color : CssColor

/-- The world state seen by the systems: the elapsed wall time
(`Res<Time>`), the entities, and the gizmo draw list of the current frame's
immediate-mode queue. -/
structure World where
  elapsed_seconds : ℝ
  entities : List Entity
  gizmos : List GizmoLine

/-- The oscillation parameter computed each tick:
`let t = (time.elapsed_seconds().sin() + 1.) / 2.;`. -/
noncomputable def tParam (elapsed : ℝ) : ℝ := (Real.sin elapsed + 1) / 2

/-- Embedding of
```
fn animate_cube(time: Res<Time>, mut query: Query<(&mut Transform, &Curve)>, mut gizmos: Gizmos) {
    let t = (time.elapsed_seconds().sin() + 1.) / 2.;
    for (mut transform, cubic_curve) in &mut query {
        gizmos.linestrip(cubic_curve.0.iter_positions(50), WHITE);
        transform.translation = cubic_curve.0.position(t);
    }
}
```
The query matches exactly the entities holding a `Curve` component; each
gets one 50-subdivision linestrip drawn and its translation set to the
curve's position at `t`.  (The linestrip reads only the curve, never the
transform, so drawing and moving commute and are modelled as two passes.) -/
noncomputable def animate_cube (w : World) : World :=
  let t := tParam w.elapsed_seconds
  { w with
    entities := w.entities.map (fun e =>
      match e.curve with
      | some cubic_curve =>
          { e with transform :=
              { e.transform with translation := cubic_curve.position t } }
      | none => e),
    gizmos := w.gizmos ++ w.entities.filterMap (fun e =>
      e.curve.map (fun cubic_curve =>
        { points := cubic_curve.iter_positions 50, color := CssColor.white })) }

/-! ### The application wiring inside `say_hi` -/

/-- Tags for the two systems registered on the app. -/
inductive SysTag
  | setup
  | animate_cube
deriving DecidableEq

/-- An app as a pair of system lists: those registered with
`add_systems(Startup, _)` and those with `add_systems(Update, _)`. -/
structure AppModel where
  startup : List SysTag
  update : List SysTag
deriving DecidableEq

/-- The app built inside `say_hi`:
`App::new().add_plugins(DefaultPlugins).add_systems(Startup, setup).add_systems(Update, animate_cube)`. -/
def sayHiApp : AppModel := { startup := [SysTag.setup], update := [SysTag.animate_cube] }

/-- Modelled from the spec: the engine's scheduler (Bevy's `run`, external to
src/) "invokes the setup routine once at start, then invokes the per-frame
routine every tick".  The trace of systems executed over `frames` ticks is
the startup list once, then the update list once per tick. -/
def appSystemTrace (a : AppModel) (frames : ℕ) : List SysTag :=
  a.startup ++ (List.replicate frames a.update).flatten

/-- Observable side effects of the bridge operations, in program order:
launching a Bevy application, and printing a line to stdout. -/
inductive Effect
  | runBevyApp (app : AppModel)
  | println (line : String)
deriving DecidableEq

/-- The line printed by `say_hi`:
`println!("Hi from Rust! String is '{string}' and number is {number}")`. -/
def sayHiMessage (string : String) (number : Int) : String :=
  "Hi from Rust! String is '" ++ string ++ "' and number is " ++ toString number

/-- Embedding of
```
pub fn say_hi(&self, string: &QString, number: i32) {
    App::new()
        .add_plugins(DefaultPlugins)
        .add_systems(Startup, setup)
        .add_systems(Update, animate_cube)
        .run();
    println!("Hi from Rust! String is '{string}' and number is {number}");
}
```
The receiver is an immutable borrow (`&self`), so the object state passes
through unchanged; the function is total (no failure path in the embedded
code).  It first runs the Bevy app, then prints the diagnostic line; both
effects are recorded in program order. -/
def say_hi (self : MyObjectRust) (string : String) (number : Int) :
    MyObjectRust × List Effect :=
  (self, [Effect.runBevyApp sayHiApp, Effect.println (sayHiMessage string number)])

/-- A string `sub` occurs inside `s`: some prefix and suffix surround it. -/
def containsSub (s sub : String) : Prop := ∃ pre post, s = pre ++ sub ++ post

end BevyQml

namespace BevyQml

/-! ### Helper lemmas -/

/-- Component lemma: `x` of a vector sum. -/
@[simp] theorem Vec3.add_x (a b : Vec3) : (a + b).x = a.x + b.x := rfl

/-- Component lemma: `y` of a vector sum. -/
@[simp] theorem Vec3.add_y (a b : Vec3) : (a + b).y = a.y + b.y := rfl

/-- Component lemma: `z` of a vector sum. -/
@[simp] theorem Vec3.add_z (a b : Vec3) : (a + b).z = a.z + b.z := rfl

/-- Component lemma: `x` of a vector-scalar product. -/
@[simp] theorem Vec3.mul_x (v : Vec3) (c : ℝ) : (v * c).x = v.x * c := rfl

/-- Component lemma: `y` of a vector-scalar product. -/
@[simp] theorem Vec3.mul_y (v : Vec3) (c : ℝ) : (v * c).y = v.y * c := rfl

/-- Component lemma: `z` of a vector-scalar product. -/
@[simp] theorem Vec3.mul_z (v : Vec3) (c : ℝ) : (v * c).z = v.z * c := rfl

/-- `wrap32` is the identity on integers already in `i32` range. -/
theorem wrap32_eq_self {n : Int} (hlo : i32Min ≤ n) (hhi : n ≤ i32Max) :
    wrap32 n = n := by
  have h1 : (2:Int) ^ 31 = 2147483648 := by norm_num
  have h2 : (2:Int) ^ 32 = 4294967296 := by norm_num
  unfold wrap32
  unfold i32Min at hlo
  unfold i32Max at hhi
  rw [h1, h2]
  rw [h1] at hlo hhi
  omega

/-- A single-segment Bézier curve starts at its first control point. -/
theorem bezier_single_position_zero (p : Fin 4 → Vec3) :
    (CubicBezier.new [p]).to_curve.position 0 = p 0 := by
  show (CubicSegment.coefficients p bezierCharMatrix).position 0 = p 0
  ext <;> simp [CubicSegment.position, CubicSegment.coefficients, bezierCharMatrix]

/-- A single-segment Bézier curve ends at its last control point. -/
theorem bezier_single_position_one (p : Fin 4 → Vec3) :
    (CubicBezier.new [p]).to_curve.position 1 = p 3 := by
  show (CubicSegment.coefficients p bezierCharMatrix).position 1 = p 3
  ext <;> simp [CubicSegment.position, CubicSegment.coefficients, bezierCharMatrix] <;> ring

/-- `iter_positions` over `n` subdivisions yields `n + 1` sampled points
(the Rust iterator ranges over `0..=subdivisions`). -/
theorem iter_positions_length (c : CubicCurve) (n : ℕ) :
    (c.iter_positions n).length = n + 1 := by
  unfold CubicCurve.iter_positions CubicCurve.iter_samples CubicCurve.iter_uniformly
  rw [List.length_map, List.length_map, List.length_range]

/-- Every gizmo line present after a tick was either already queued or is a
50-subdivision (51-point) sample of some entity's curve. -/
theorem gizmo_new_length (w : World) (gl : GizmoLine)
    (h : gl ∈ (animate_cube w).gizmos) : gl ∈ w.gizmos ∨ gl.points.length = 51 := by
  unfold animate_cube at h
  simp only [List.mem_append] at h
  rcases h with h | h
  · exact Or.inl h
  · right
    simp only [List.mem_filterMap] at h
    obtain ⟨e, _, he⟩ := h
    rcases hc : e.curve with _ | c
    · rw [hc] at he
      simp at he
    · rw [hc] at he
      simp only [Option.map_some'] at he
      cases he
      exact iter_positions_length c 50

/-- `animate_cube` writes only translations: the curve component of every
entity is unchanged by a tick. -/
theorem curve_preserved (w : World) :
    (animate_cube w).entities.map Entity.curve = w.entities.map Entity.curve := by
  unfold animate_cube
  simp only [List.map_map]
  apply List.map_congr_left
  intro e _
  rcases hc : e.curve with _ | c <;> simp [Function.comp, hc]

/-- Flattening `n` copies of a singleton list gives `n` copies of its
element. -/
theorem replicate_flatten (n : ℕ) (a : SysTag) :
    (List.replicate n [a]).flatten = List.replicate n a := by
  induction n with
  | zero => rfl
  | succ k ih => simp [List.replicate_succ, ih]

/-- The `say_hi` app's execution trace contains exactly one run of `setup`,
however many frames are played. -/
theorem trace_count_setup (frames : ℕ) :
    (appSystemTrace sayHiApp frames).count SysTag.setup = 1 := by
  simp [appSystemTrace, sayHiApp, replicate_flatten, List.count_cons, List.count_replicate]

/-- In the `say_hi` app's trace every `animate_cube` run is preceded by a
`setup` run. -/
theorem trace_setup_first (frames : ℕ) (l₁ l₂ : List SysTag)
    (h : appSystemTrace sayHiApp frames = l₁ ++ SysTag.animate_cube :: l₂) :
    SysTag.setup ∈ l₁ := by
  rw [appSystemTrace, sayHiApp, replicate_flatten] at h
  cases l₁ with
  | nil => simp at h
  | cons hd tl =>
      rw [List.cons_append] at h
      have h1 : SysTag.setup = hd := (List.cons.injEq _ _ _ _ ▸ h).1
      rw [← h1]
      exact List.mem_cons_self _ _

end BevyQml

/-! ### The claims -/

namespace BevyQml

/-- C1: `say_hi` called with text "hello" and number 5 leaves the exposed
object unchanged (immutable receiver), and its printed diagnostic line
contains both "hello" and "5".  The embedded function is total, matching
"cannot fail under normal operation". -/
theorem claim_C1 (s : MyObjectRust) :
    (say_hi s "hello" 5).1 = s ∧
    Effect.println (sayHiMessage "hello" 5) ∈ (say_hi s "hello" 5).2 ∧
    containsSub (sayHiMessage "hello" 5) "hello" ∧
    containsSub (sayHiMessage "hello" 5) "5" := by
  refine ⟨rfl, ?_, ⟨"Hi from Rust! String is '", "' and number is 5", rfl⟩,
    ⟨"Hi from Rust! String is 'hello' and number is ", "", rfl⟩⟩
  exact List.mem_cons_of_mem _ (List.mem_cons_self _ _)

/-- C2 (corrected): on every state whose counter is a valid `i32` strictly
below `i32::MAX`, `increment_number` writes back exactly the old value plus
one.  (At `i32::MAX` itself the claim fails: the sum wraps, see the
counterexample.) -/
theorem claim_C2 (s : MyObjectRust) (hlo : i32Min ≤ s.number)
    (hhi : s.number < i32Max) :
    (increment_number s).number = s.number + 1 :=
  wrap32_eq_self (by unfold i32Min at hlo ⊢; omega) (Int.add_one_le_iff.mpr hhi)

/-- C2 witness: the corrected statement evaluated on the default state. -/
theorem claim_C2_witness :
    i32Min ≤ MyObjectRust.default.number ∧ MyObjectRust.default.number < i32Max ∧
    (increment_number MyObjectRust.default).number = MyObjectRust.default.number + 1 :=
  ⟨by decide, by decide, claim_C2 MyObjectRust.default (by decide) (by decide)⟩

/-- C2 counterexample: at the state with counter `i32::MAX` the written
value is not the old value plus one (it wraps to `i32::MIN`). -/
theorem claim_C2_counterexample :
    ¬ (increment_number { number := i32Max, string := "" }).number = i32Max + 1 := by
  decide

/-- C3: starting from the default state (counter 0), `n` calls of
`increment_number` leave the counter equal to `n`, for every `n` that fits
the 32-bit signed range (no overflow engaged). -/
theorem claim_C3 (n : ℕ) (h : (n : Int) ≤ i32Max) :
    (increment_number^[n] MyObjectRust.default).number = n := by
  induction n with
  | zero => rfl
  | succ k ih =>
      have h' : (k : Int) + 1 ≤ i32Max := by push_cast at h; exact h
      have hk : (k : Int) ≤ i32Max := by linarith
      rw [Function.iterate_succ_apply']
      show wrap32 ((increment_number^[k] MyObjectRust.default).number + 1) = ((k + 1 : ℕ) : Int)
      rw [ih hk, wrap32_eq_self]
      · push_cast
        ring
      · have h0 : (0:Int) ≤ (k:Int) + 1 := by positivity
        unfold i32Min
        linarith
      · exact h'

/-- C3 witness: three increments from the default state yield 3. -/
theorem claim_C3_witness :
    ((3 : ℕ) : Int) ≤ i32Max ∧
    (increment_number^[3] MyObjectRust.default).number = ((3 : ℕ) : Int) :=
  ⟨by decide, claim_C3 3 (by decide)⟩

/-- C4: the per-frame parameter `t = (sin elapsed + 1)/2` lies in `[0, 1]`
for every real elapsed time, and is periodic with period `2π`. -/
theorem claim_C4 (elapsed : ℝ) :
    (0 ≤ tParam elapsed ∧ tParam elapsed ≤ 1) ∧
    tParam (elapsed + 2 * Real.pi) = tParam elapsed := by
  refine ⟨⟨?_, ?_⟩, ?_⟩
  · have h := Real.neg_one_le_sin elapsed
    unfold tParam
    linarith
  · have h := Real.sin_le_one elapsed
    unfold tParam
    linarith
  · unfold tParam
    rw [Real.sin_add_two_pi]

/-- C5 (corrected): the polyline sampled for the curve visualization has
exactly 51 points (the 50-subdivision iterator is inclusive of both ends),
independent of the elapsed time: every gizmo line a tick adds to any world
has 51 points. -/
theorem claim_C5 :
    (∀ c : CubicCurve, (c.iter_positions 50).length = 51) ∧
    (∀ (w : World) (gl : GizmoLine), gl ∈ (animate_cube w).gizmos →
      gl ∈ w.gizmos ∨ gl.points.length = 51) :=
  ⟨fun c => iter_positions_length c 50, gizmo_new_length⟩

/-- C5 witness: the tick at elapsed time 0 on the freshly set-up scene draws
the curve's polyline, and that polyline has 51 points. -/
theorem claim_C5_witness :
    ({ points := bezier.iter_positions 50, color := CssColor.white } : GizmoLine) ∈
      (animate_cube { elapsed_seconds := 0, entities := setupEntities, gizmos := [] }).gizmos ∧
    (({ points := bezier.iter_positions 50, color := CssColor.white } : GizmoLine) ∈
        ({ elapsed_seconds := 0, entities := setupEntities, gizmos := [] } : World).gizmos ∨
      ({ points := bezier.iter_positions 50, color := CssColor.white } : GizmoLine).points.length = 51) :=
  ⟨by simp [animate_cube, setupEntities],
    claim_C5.2 _ _ (by simp [animate_cube, setupEntities])⟩

/-- C5 counterexample: the claimed count of exactly 50 points is wrong for
the curve built by `setup`; the polyline has 51 points. -/
theorem claim_C5_counterexample : ¬ (bezier.iter_positions 50).length = 50 := by
  rw [iter_positions_length]
  norm_num

/-- C6: every four-point cubic Bézier curve starts at its first control
point (parameter 0) and ends at its last (parameter 1); in particular the
curve built by `setup` runs from (-6,2,0) to (6,2,0). -/
theorem claim_C6 :
    (∀ p : Fin 4 → Vec3,
        (CubicBezier.new [p]).to_curve.position 0 = p 0 ∧
        (CubicBezier.new [p]).to_curve.position 1 = p 3) ∧
    bezier.position 0 = vec3 (-6) 2 0 ∧ bezier.position 1 = vec3 6 2 0 :=
  ⟨fun p => ⟨bezier_single_position_zero p, bezier_single_position_one p⟩,
    bezier_single_position_zero controlPoints,
    bezier_single_position_one controlPoints⟩

/-- C7: `setup` populates the scene with exactly four entities — the
curve-carrying cube at the first control point, a shadow-enabled point
light, the ground plane, and a camera — and in the app registered by
`say_hi` the scheduler runs `setup` exactly once, before every run of
`animate_cube` (scheduler modelled from the spec's control-flow
description). -/
theorem claim_C7 :
    setupEntities.length = 4 ∧
    (∃ e ∈ setupEntities, e.curve = some bezier ∧ e.mesh = some MeshShape.cuboid ∧
      e.material = some CssColor.orange ∧ e.transform.translation = controlPoints 0) ∧
    (∃ e ∈ setupEntities, ∃ pl, e.light = some pl ∧ pl.shadows_enabled = true) ∧
    (∃ e ∈ setupEntities, ∃ w h, e.mesh = some (MeshShape.plane w h)) ∧
    (∃ e ∈ setupEntities, e.camera = true) ∧
    (∀ frames : ℕ, (appSystemTrace sayHiApp frames).count SysTag.setup = 1) ∧
    (∀ (frames : ℕ) (l₁ l₂ : List SysTag),
      appSystemTrace sayHiApp frames = l₁ ++ SysTag.animate_cube :: l₂ →
      SysTag.setup ∈ l₁) :=
  ⟨rfl,
    ⟨_, List.mem_cons_self _ _, rfl, rfl, rfl, rfl⟩,
    ⟨_, List.mem_cons_of_mem _ (List.mem_cons_self _ _), _, rfl, rfl⟩,
    ⟨_, List.mem_cons_of_mem _ (List.mem_cons_of_mem _ (List.mem_cons_self _ _)), 50, 50, rfl⟩,
    ⟨_, List.mem_cons_of_mem _ (List.mem_cons_of_mem _ (List.mem_cons_of_mem _ (List.mem_cons_self _ _))), rfl⟩,
    trace_count_setup,
    trace_setup_first⟩

/-- C7 witness: in the one-frame trace, `animate_cube` at position 1 is
preceded by the `setup` run. -/
theorem claim_C7_witness :
    appSystemTrace sayHiApp 1 = [SysTag.setup] ++ SysTag.animate_cube :: [] ∧
    SysTag.setup ∈ [SysTag.setup] :=
  ⟨by decide, claim_C7.2.2.2.2.2.2 1 [SysTag.setup] [] (by decide)⟩

/-- C8: the per-frame routine is deterministic in the elapsed time and the
curve: equal elapsed times and equal curves give equal positions, and two
worlds agreeing on elapsed time and entities agree on all entities after
the tick. -/
theorem claim_C8 :
    (∀ (elapsed₁ elapsed₂ : ℝ) (c₁ c₂ : CubicCurve),
      elapsed₁ = elapsed₂ → c₁ = c₂ →
      c₁.position (tParam elapsed₁) = c₂.position (tParam elapsed₂)) ∧
    (∀ w₁ w₂ : World, w₁.elapsed_seconds = w₂.elapsed_seconds →
      w₁.entities = w₂.entities →
      (animate_cube w₁).entities = (animate_cube w₂).entities) := by
  constructor
  · intro e₁ e₂ c₁ c₂ he hc
    rw [he, hc]
  · intro w₁ w₂ he hent
    unfold animate_cube
    simp only
    rw [he, hent]

/-- C8 witness: the determinism statement evaluated at elapsed time 0 and
the curve built by `setup`. -/
theorem claim_C8_witness :
    (0 : ℝ) = 0 ∧ bezier = bezier ∧
    bezier.position (tParam 0) = bezier.position (tParam 0) :=
  ⟨rfl, rfl, claim_C8.1 0 0 bezier bezier rfl rfl⟩

/-- C9: the curve components are fixed by `setup` (the cube carries the
Bézier curve, nothing else carries one) and every tick of `animate_cube`
leaves the curve component of every entity unchanged. -/
theorem claim_C9 :
    setupEntities.map Entity.curve = [some bezier, none, none, none] ∧
    ∀ w : World, (animate_cube w).entities.map Entity.curve =
      w.entities.map Entity.curve :=
  ⟨rfl, curve_preserved⟩

/-- C10: `increment_number` only touches the counter: the string property of
every state is unchanged. -/
theorem claim_C10 (s : MyObjectRust) :
    (increment_number s).string = s.string := rfl

end BevyQml
